import Mathlib

/-!
Shallow embedding of the momentumchaser scan-and-rank engine:
`src/kite_client 2.py` (incremental per-symbol series cache),
`src/screener.py` (feature library) and `src/scan 2.py`
(per-symbol filters, metric computations, scoring, ranked-output sort).

Dates are modelled as `Nat` (days), prices and volumes as `ℚ`.
Pandas NaN propagation is modelled with `Option ℚ` where a rolling
window can be incomplete; a comparison against `none` is `false`,
matching `NaN cmp x = False` in Python.  Division in `ℚ` yields `0`
at a zero denominator whereas Python float division yields `inf`
(positive numerator) or `NaN` (zero numerator); every theorem or
counterexample below that touches a zero denominator uses only the
`0/0` case, on which both semantics agree that the result is not a
value `≥ 9`.
-/

set_option maxRecDepth 8000

namespace MC

/-- One daily OHLCV bar (`date,open,high,low,close,volume` row of a cache
CSV / Kite candle).  The `open` price is carried for fidelity but unused
by the scanner's metrics. -/
structure Bar where
  date : Nat
  openPrice : ℚ
  high : ℚ
  low : ℚ
  close : ℚ
  volume : ℚ
deriving Repr, DecidableEq

/-- Helper to build a bar with the given date, high, low, close, volume
(open price set to close). -/
def mkBar (d : Nat) (h l c v : ℚ) : Bar :=
  ⟨d, c, h, l, c, v⟩

/-- Date order used by `sort_values("date")`. -/
def dateLE (a b : Bar) : Prop := a.date ≤ b.date

/-- Strict date order; a persisted Series has strictly increasing dates. -/
def dateLT (a b : Bar) : Prop := a.date < b.date

instance : DecidableRel dateLE := fun a b => Nat.decLe a.date b.date

instance : DecidableRel dateLT := fun a b => Nat.decLt a.date b.date

/-- `df.sort_values("date")` (stable sort by date). -/
def sortByDate (l : List Bar) : List Bar := List.insertionSort dateLE l

/-- `df.drop_duplicates(subset=["date"])` — keep the first row of each date. -/
def dedupDates : List Bar → List Bar
  | [] => []
  | b :: rest => b :: (dedupDates rest).filter (fun x => x.date ≠ b.date)

/-- Model of `_read_cache`: load the persisted rows, sort by date, drop
duplicate dates.  (`_write_cache` applies the same normalisation before
persisting.) -/
def readCacheL (l : List Bar) : List Bar := dedupDates (sortByDate l)

/-- `cached["date"].iloc[-1]` as a total function (`0` on an empty list,
never consulted there by the cache logic). -/
def lastDate (l : List Bar) : Nat := ((l.getLast?).map Bar.date).getD 0

deriving instance DecidableEq for Except

/-- Outcome of one call to `get_hist_daily_cached`: the value returned to
the caller (`Except.error` models a provider exception propagating out),
the list of `(from_date, to_date)` ranges requested from
`get_hist_daily` (the upstream network calls), and the persisted cache
file content after the call. -/
structure FetchOutcome where
  result : Except Unit (List Bar)
  calls : List (Nat × Nat)
  newCache : List Bar
deriving Repr, DecidableEq

/-- The tail of `get_hist_daily_cached` after `fetch_start` is fixed:
`if fetch_start <= end_date: fresh = get_hist_daily(...) ...`.
`c` is the loaded cache (`cached` in the Python source), `persisted` the
on-disk rows. -/
def cacheContinue (fetch : Nat → Nat → Except Unit (List Bar))
    (c persisted : List Bar) (fetch_start end_date : Nat) : FetchOutcome :=
  if fetch_start ≤ end_date then
    match fetch fetch_start end_date with
    | Except.error e => ⟨Except.error e, [(fetch_start, end_date)], persisted⟩
    | Except.ok fresh =>
      if fresh.isEmpty then ⟨Except.ok c, [(fetch_start, end_date)], persisted⟩
      else
        let merged := if c.isEmpty then fresh else c ++ fresh
        ⟨Except.ok merged, [(fetch_start, end_date)], readCacheL merged⟩
  else ⟨Except.ok c, [], persisted⟩

/-- Shallow embedding of `get_hist_daily_cached(kite, token, symbol, s, e)`.
`fetch a b` stands for `get_hist_daily(kite, token, a, b)`; an
`Except.error` result models a raised provider exception, which this
function does not catch.  `persisted` is the symbol's cache file content. -/
def get_hist_daily_cached (fetch : Nat → Nat → Except Unit (List Bar))
    (persisted : List Bar) (start_date end_date : Nat) : FetchOutcome :=
  let c := readCacheL persisted
  if c.isEmpty then cacheContinue fetch c persisted start_date end_date
  else if end_date ≤ lastDate c then ⟨Except.ok c, [], persisted⟩
  else cacheContinue fetch c persisted (lastDate c + 1) end_date

/-! Feature library (`src/screener.py`). -/

/-- `s.rolling(n).mean().iat[i]`: `none` models pandas NaN when fewer than
`n` values precede (and include) index `i`. -/
def rollingMeanAt (n : Nat) (xs : List ℚ) (i : Nat) : Option ℚ :=
  if i + 1 < n then none
  else some ((((xs.drop (i + 1 - n)).take n).sum) / n)

/-- Trailing mean of the last `k` values of a list (`rolling(k).mean().iat[-1]`);
`none` models NaN when the list is shorter than `k`. -/
def meanLastN (k : Nat) (xs : List ℚ) : Option ℚ :=
  if xs.length < k then none
  else some ((xs.drop (xs.length - k)).sum / k)

/-- Maximum of the last `k` values (`rolling(k).max().iat[-1]`); `none`
models NaN when the list is shorter than `k`. -/
def rollingMaxLast (k : Nat) (xs : List ℚ) : Option ℚ :=
  if xs.length < k then none
  else
    match xs.drop (xs.length - k) with
    | [] => none
    | y :: ys => some (ys.foldl max y)

/-- `a > b` on possibly-NaN values: any comparison against NaN is `False`
in Python, hence `false` when either side is `none`. -/
def oGT (a b : Option ℚ) : Bool :=
  match a, b with
  | some x, some y => decide (y < x)
  | _, _ => false

/-- `df["close"].iat[-1]` as a total function (`0` on an empty frame,
never consulted there by the callers modelled here). -/
def lastClose (df : List Bar) : ℚ := ((df.getLast?).map Bar.close).getD 0

/-- Shallow embedding of `screener.is_uptrend`:
`close.iat[-1] > ma50.iat[-1] > ma200.iat[-1]` and
`ma50.iat[-1] > ma50.iat[-5]` (NaN comparisons are `false`; for a frame
of length `n`, `iat[-1]` is index `n-1` and `iat[-5]` is index `n-5`). -/
def is_uptrend (df : List Bar) : Bool :=
  let closes := df.map Bar.close
  let n := closes.length
  let cLast := closes.get? (n - 1)
  let m50Last := rollingMeanAt 50 closes (n - 1)
  let m200Last := rollingMeanAt 200 closes (n - 1)
  let m50Prev := rollingMeanAt 50 closes (n - 5)
  oGT cLast m50Last && oGT m50Last m200Last && oGT m50Last m50Prev

/-- Uptrend predicate transcribed from the spec sentence: close > MA50 >
MA200 at the latest bar, and MA50 at the latest bar exceeds MA50 five
bars prior.  "Five bars prior" to the latest bar of an `n`-bar series is
bar `n-6`, i.e. the MA50 over the series with its last five bars
removed. -/
def specUptrendClaim (df : List Bar) : Bool :=
  let closes := df.map Bar.close
  let n := closes.length
  oGT closes.getLast? (meanLastN 50 closes)
    && oGT (meanLastN 50 closes) (meanLastN 200 closes)
    && oGT (meanLastN 50 closes) (meanLastN 50 (closes.take (n - 5)))

/-- Amended uptrend predicate: same as `specUptrendClaim` except the
trailing MA50 comparison point is four bars prior (the fifth-from-last
MA50 value, `iat[-5]`), i.e. the MA50 over the series with its last
four bars removed. -/
def specUptrendAmended (df : List Bar) : Bool :=
  let closes := df.map Bar.close
  let n := closes.length
  oGT closes.getLast? (meanLastN 50 closes)
    && oGT (meanLastN 50 closes) (meanLastN 200 closes)
    && oGT (meanLastN 50 closes) (meanLastN 50 (closes.take (n - 4)))

/-- Shallow embedding of `screener.within_52w_high`:
`high_52w = df["high"].rolling(252).max().iat[-1]` and then
`(high_52w - close.iat[-1]) / high_52w <= max_dd`; a NaN rolling max
(fewer than 252 bars) makes the comparison `false`. -/
def within_52w_high (df : List Bar) (max_dd : ℚ) : Bool :=
  match rollingMaxLast 252 (df.map Bar.high) with
  | none => false
  | some high52 => decide ((high52 - lastClose df) / high52 ≤ max_dd)

/-! Scan orchestrator pieces (`src/scan 2.py`). -/

/-- `df.tail(n)`: the last `n` rows (all of them when fewer). -/
def tailN (n : Nat) (l : List Bar) : List Bar := l.drop (l.length - n)

/-- Shallow embedding of `scan.box_span_fraction`: on an empty window the
`9.99` sentinel, otherwise `(box.high.max() - box.low.min()) / last_close`.
The division is unguarded in the source; `last_close = 0` divides by zero
(Python: `inf`/NaN, here `ℚ` division by zero). -/
def box_span_fraction (df : List Bar) (look : Nat) (last_close : ℚ) : ℚ :=
  match tailN look df with
  | [] => 999 / 100
  | b :: rest =>
    ((rest.foldl (fun acc x => max acc x.high) b.high)
      - (rest.foldl (fun acc x => min acc x.low) b.low)) / last_close

/-- The ATR-ratio line of the scan loop:
`atr_ratio = (atr_now / atr_base) if atr_base > 0 else 9.99`.
A NaN `atr_base` also fails the `> 0` guard in Python and lands on the
sentinel, like every non-positive base here. -/
def atrRatioOf (atr_now atr_base : ℚ) : ℚ :=
  if 0 < atr_base then atr_now / atr_base else 999 / 100

/-- The volume-ratio line of the scan loop:
`vol_ratio = (v5 / v50) if v50 > 0 else 9.99`. -/
def volRatioOf (v5 v50 : ℚ) : ℚ :=
  if 0 < v50 then v5 / v50 else 999 / 100

/-- The pivot-distance line of the scan loop:
`dist_to_pivot = abs(pivot - close) / pivot` — unguarded division. -/
def distToPivotOf (pivot close : ℚ) : ℚ := |pivot - close| / pivot

/-- The tunables of `scan 2.py` that the embedded functions consume
(env-overridable module globals in the source). -/
structure Config where
  PRICE_FLOOR : ℚ
  MIN_DV_CR : ℚ
  BOX_LEN : Nat
  BOX_CAP : ℚ
  ATR_CAP : ℚ
  VOL_CAP : ℚ
  PIVOT_TOL : ℚ
  W_BOX : ℚ
  W_ATR : ℚ
  W_VOL : ℚ
  W_PIVOT : ℚ
  BONUS_UPTREND : ℚ
  BONUS_NEARHIGH : ℚ
deriving Repr, DecidableEq

/-- The documented defaults of the tunables. -/
def defaultConfig : Config :=
  ⟨100, 5, 12, 12/100, 12/10, 12/10, 3/100, 3/10, 1/4, 1/5, 1/4, 1/20, 1/20⟩

/-- `clamp01(x) = 0.0 if x < 0 else (1.0 if x > 1 else x)`. -/
def clamp01 (x : ℚ) : ℚ := if x < 0 then 0 else if 1 < x then 1 else x

/-- The metrics dictionary handed to `compute_score`. -/
structure Metrics where
  box_span_frac : ℚ
  atr_ratio : ℚ
  vol_ratio : ℚ
  dist_to_pivot : ℚ
  uptrend : Bool
  within_20pct_high : Bool
deriving Repr, DecidableEq

/-- Shallow embedding of `scan.compute_score`. -/
def compute_score (cfg : Config) (m : Metrics) : ℚ :=
  let box_frac := min m.box_span_frac cfg.BOX_CAP / cfg.BOX_CAP
  let atr_r := min m.atr_ratio cfg.ATR_CAP / cfg.ATR_CAP
  let vol_r := min m.vol_ratio cfg.VOL_CAP / cfg.VOL_CAP
  let dist_r := min m.dist_to_pivot cfg.PIVOT_TOL / cfg.PIVOT_TOL
  let sBox := clamp01 (1 - box_frac)
  let sAtr := clamp01 (1 - atr_r)
  let sVol := clamp01 (1 - vol_r)
  let sPivot := clamp01 (1 - dist_r)
  cfg.W_BOX * sBox + cfg.W_ATR * sAtr + cfg.W_VOL * sVol + cfg.W_PIVOT * sPivot
    + (if m.uptrend then cfg.BONUS_UPTREND else 0)
    + (if m.within_20pct_high then cfg.BONUS_NEARHIGH else 0)

/-- `tv20_cr = (tv20 / 1e7) if pd.notna(tv20) else 0.0`, where `tv20` is
the 20-bar trailing mean of `close * volume`. -/
def tv20_cr (df : List Bar) : ℚ :=
  match meanLastN 20 (df.map fun b => b.close * b.volume) with
  | some v => v / 10000000
  | none => 0

/-- Terminal per-symbol classifications of the scan loop that follow a
successful fetch (`not_found_in_instruments` and `fetch_failed` occur
before any frame exists and are out of this function's scope). -/
inductive Reason where
  | insufficient_history
  | below_price_floor
  | below_traded_value
  | ranked
deriving Repr, DecidableEq

/-- The filter sequence of the scan loop on a fetched frame, in source
order: `len(df) < 220` → `insufficient_history`; `close < PRICE_FLOOR` →
`below_price_floor`; `tv20_cr < MIN_DV_CR` → `below_traded_value`;
otherwise the symbol is ranked. -/
def classify (cfg : Config) (df : List Bar) : Reason :=
  if df.length < 220 then Reason.insufficient_history
  else if lastClose df < cfg.PRICE_FLOOR then Reason.below_price_floor
  else if tv20_cr df < cfg.MIN_DV_CR then Reason.below_traded_value
  else Reason.ranked

/-- The fields of a ranked output row that its final sort consults, plus
an identity stand-in for the symbol. -/
structure RankedRow where
  symbol : Nat
  score : ℚ
  box_span_pct : ℚ
deriving Repr, DecidableEq

/-- The sort key of
`ranked_df.sort_values(["score", "box_span_pct"], ascending=[False, True])`:
higher score first, ties by smaller `box_span_pct` first. -/
def rankedOrder (a b : RankedRow) : Prop :=
  b.score < a.score ∨ (a.score = b.score ∧ a.box_span_pct ≤ b.box_span_pct)

instance : DecidableRel rankedOrder := fun a b => by
  unfold rankedOrder; infer_instance

instance : IsTotal RankedRow rankedOrder := by
  constructor
  intro a b
  rcases lt_trichotomy a.score b.score with h | h | h
  · exact Or.inr (Or.inl h)
  · rcases le_total a.box_span_pct b.box_span_pct with hb | hb
    · exact Or.inl (Or.inr ⟨h, hb⟩)
    · exact Or.inr (Or.inr ⟨h.symm, hb⟩)
  · exact Or.inl (Or.inl h)

instance : IsTrans RankedRow rankedOrder := by
  constructor
  intro a b c hab hbc
  rcases hab with hab | ⟨hab, hab2⟩
  · rcases hbc with hbc | ⟨hbc, _⟩
    · exact Or.inl (hbc.trans hab)
    · exact Or.inl (by rw [← hbc]; exact hab)
  · rcases hbc with hbc | ⟨hbc, hbc2⟩
    · exact Or.inl (by rw [hab]; exact hbc)
    · exact Or.inr ⟨hab.trans hbc, hab2.trans hbc2⟩

/-- The final sort of the ranked rows. -/
def sortRanked (rows : List RankedRow) : List RankedRow :=
  List.insertionSort rankedOrder rows

/-- A fetch oracle whose upstream has data only on day 5: used to replay
two cache fetches against a source whose data stops before the requested
end date. -/
def dbBar : Bar := mkBar 5 12 9 10 1000

/-- Oracle returning the upstream bars (only `dbBar`) inside the requested
range — a fixed upstream database, identical on both calls. -/
def dbFetch : Nat → Nat → Except Unit (List Bar) := fun a b =>
  Except.ok ([dbBar].filter (fun x => decide (a ≤ x.date) && decide (x.date ≤ b)))

/-- Oracle whose every call succeeds with an empty result. -/
def okEmptyFetch : Nat → Nat → Except Unit (List Bar) := fun _ _ => Except.ok []

/-- Oracle whose every call raises (models a provider exception). -/
def errFetch : Nat → Nat → Except Unit (List Bar) := fun _ _ => Except.error ()

/-- A one-bar persisted cache ending at day 5. -/
def cacheBar5 : List Bar := [mkBar 5 12 9 10 1000]

/-- Close prices (as integers) of a 200-bar series separating the two
readings of the MA50 slope condition: MA50 at the last bar is 101, at
`iat[-5]` (four bars prior) it is 100, at five bars prior it is 106. -/
def closesZ : List ℤ :=
  List.replicate 5 0 ++ List.replicate 140 100 ++ [400] ++ List.replicate 53 100 ++ [150]

/-- A flat OHLC bar at integer price `z` with volume 1. -/
def barOfZ (z : ℤ) : Bar := mkBar 0 (z:ℚ) (z:ℚ) (z:ℚ) 1

/-- The 200-bar frame built from `closesZ`. -/
def df200 : List Bar := closesZ.map barOfZ

/-- A 220-bar frame whose close (50) is below the default price floor and
whose 20-day traded value (0) is below the default liquidity floor. -/
def df220 : List Bar := List.replicate 220 (mkBar 0 50 50 50 0)

/-- A 220-bar frame above the price floor but below the liquidity floor. -/
def df220b : List Bar := List.replicate 220 (mkBar 0 150 150 150 0)

/-- A single flat bar (high = low = 5). -/
def cbar : Bar := mkBar 0 5 5 5 1

/-- Flat bar at price 10. -/
def barA : Bar := mkBar 0 10 10 10 1

/-- Flat bar at price 20. -/
def barB : Bar := mkBar 1 20 20 20 1

/-- A tight-consolidation metrics record. -/
def mTight : Metrics := ⟨1/20, 1, 1, 1/100, true, true⟩

/-- The same record with a wider box span. -/
def mLoose : Metrics := ⟨9/100, 1, 1, 1/100, true, true⟩

end MC

namespace MC

/-! Helper lemmas. -/

instance : IsTrans Bar dateLT := ⟨fun _ _ _ h1 h2 => Nat.lt_trans h1 h2⟩

theorem sortByDate_of_chain (l : List Bar) (h : List.Chain' dateLT l) :
    sortByDate l = l := by
  apply List.Sorted.insertionSort_eq
  exact (List.chain'_iff_pairwise.mp h).imp (fun hab => Nat.le_of_lt hab)

theorem dedupDates_eq_self :
    ∀ l : List Bar, List.Pairwise (fun a b => a.date ≠ b.date) l → dedupDates l = l
  | [], _ => rfl
  | b :: rest, h => by
    rcases List.pairwise_cons.mp h with ⟨hb, hrest⟩
    rw [dedupDates, dedupDates_eq_self rest hrest, List.filter_eq_self.mpr]
    intro a ha
    exact decide_eq_true (fun hd => hb a ha hd.symm)

theorem readCacheL_of_chain (l : List Bar) (h : List.Chain' dateLT l) :
    readCacheL l = l := by
  rw [readCacheL, sortByDate_of_chain l h]
  exact dedupDates_eq_self l
    ((List.chain'_iff_pairwise.mp h).imp (fun hab => Nat.ne_of_lt hab))

theorem isEmpty_false_of_ne_nil {l : List Bar} (h : l ≠ []) : l.isEmpty = false := by
  cases l with
  | nil => exact absurd rfl h
  | cons a t => rfl

/-! Claim theorems. -/

/-- C1, amended: if the persisted series is non-empty and its last date is
on or after the requested end date, the cache fetch returns it unchanged,
performs no upstream call and leaves the cache file untouched; in
particular an immediately repeated fetch with the same arguments performs
no upstream call either.  (Without the last-date proviso a second fetch
can still issue one upstream call — see the counterexample.) -/
theorem c1_cache_hit_no_network (fetch : Nat → Nat → Except Unit (List Bar))
    (persisted : List Bar) (s e : Nat)
    (hch : List.Chain' dateLT persisted) (hne : persisted ≠ [])
    (hl : e ≤ lastDate persisted) :
    get_hist_daily_cached fetch persisted s e
        = ⟨Except.ok persisted, [], persisted⟩ ∧
      (get_hist_daily_cached fetch
        (get_hist_daily_cached fetch persisted s e).newCache s e).calls = [] := by
  have hrc : readCacheL persisted = persisted := readCacheL_of_chain persisted hch
  have hie : persisted.isEmpty = false := isEmpty_false_of_ne_nil hne
  have hfirst : get_hist_daily_cached fetch persisted s e
      = ⟨Except.ok persisted, [], persisted⟩ := by
    unfold get_hist_daily_cached
    simp [hrc, hie, hl]
  refine ⟨hfirst, ?_⟩
  rw [hfirst, hfirst]

/-- C1 counterexample scenario: with an empty cache and an upstream whose
data stops at day 5, a first fetch over days 0..10 stores the day-5 bar;
the repeated fetch with the same arguments and the same upstream then
still issues one upstream call (for days 6..10, which returns empty),
contradicting the claim that the second call performs no network call. -/
theorem c1_second_call_counterexample :
    (get_hist_daily_cached dbFetch
        (get_hist_daily_cached dbFetch [] 0 10).newCache 0 10).calls = [(6, 10)] ∧
      (get_hist_daily_cached dbFetch
        (get_hist_daily_cached dbFetch [] 0 10).newCache 0 10).calls ≠ [] := by
  constructor
  · rfl
  · decide

/-- C1 witness instantiation of `c1_cache_hit_no_network` at a concrete
cache whose last date (5) is at or after the requested end date (5). -/
theorem c1_witness :
    List.Chain' dateLT cacheBar5 ∧ cacheBar5 ≠ [] ∧ 5 ≤ lastDate cacheBar5 ∧
      (get_hist_daily_cached okEmptyFetch cacheBar5 0 5
          = ⟨Except.ok cacheBar5, [], cacheBar5⟩ ∧
        (get_hist_daily_cached okEmptyFetch
          (get_hist_daily_cached okEmptyFetch cacheBar5 0 5).newCache 0 5).calls = []) :=
  ⟨List.chain'_singleton _, by decide, by decide,
    c1_cache_hit_no_network okEmptyFetch cacheBar5 0 5
      (List.chain'_singleton _) (by decide) (by decide)⟩

/-- C2: a cache fetch over a non-empty persisted series ending at day D
with D < endDate requests exactly the range (D+1, endDate) upstream; a
fetch over an empty cache with startDate ≤ endDate requests exactly
(startDate, endDate). -/
theorem c2_incremental_range (fetch : Nat → Nat → Except Unit (List Bar))
    (persisted : List Bar) (s e : Nat) :
    (List.Chain' dateLT persisted → persisted ≠ [] → lastDate persisted < e →
      (get_hist_daily_cached fetch persisted s e).calls
          = [(lastDate persisted + 1, e)])
    ∧ (s ≤ e → (get_hist_daily_cached fetch [] s e).calls = [(s, e)]) := by
  constructor
  · intro hch hne hlt
    have hrc : readCacheL persisted = persisted := readCacheL_of_chain persisted hch
    have hie : persisted.isEmpty = false := isEmpty_false_of_ne_nil hne
    unfold get_hist_daily_cached
    rw [hrc]
    simp only [hie, Bool.false_eq_true, if_false, Nat.not_le.mpr hlt, if_neg (Nat.not_le.mpr hlt)]
    unfold cacheContinue
    rw [if_pos (Nat.succ_le_of_lt hlt)]
    cases hf : fetch (lastDate persisted + 1) e with
    | error err => rfl
    | ok fresh =>
      by_cases hfr : fresh.isEmpty <;> simp [hfr]
  · intro hse
    unfold get_hist_daily_cached
    simp only [readCacheL, sortByDate, dedupDates, List.insertionSort, List.isEmpty_nil, if_true]
    unfold cacheContinue
    rw [if_pos hse]
    cases hf : fetch s e with
    | error err => rfl
    | ok fresh =>
      by_cases hfr : fresh.isEmpty <;> simp [hfr]

/-- C2 witness: concrete instantiations of both branches of
`c2_incremental_range` — a cache ending at day 5 with end date 10 asks
for exactly (6, 10), and an empty cache asks for exactly (0, 10). -/
theorem c2_witness :
    List.Chain' dateLT cacheBar5 ∧ cacheBar5 ≠ [] ∧ lastDate cacheBar5 < 10 ∧ (0:Nat) ≤ 10 ∧
      (get_hist_daily_cached okEmptyFetch cacheBar5 0 10).calls
          = [(lastDate cacheBar5 + 1, 10)] ∧
      (get_hist_daily_cached okEmptyFetch [] 0 10).calls = [(0, 10)] :=
  ⟨List.chain'_singleton _, by decide, by decide, by decide,
    (c2_incremental_range okEmptyFetch cacheBar5 0 10).1
      (List.chain'_singleton _) (by decide) (by decide),
    (c2_incremental_range okEmptyFetch [] 0 10).2 (by decide)⟩

/-- C3, amended: when the upstream fetch returns an empty result the cache
fetch returns the loaded cached series and leaves the cache file
unchanged; when the upstream fetch raises, the exception propagates out
of the cache fetch (the scan orchestrator catches it per symbol) while
the cache file is still left unchanged — in neither case is data
fabricated or the cache modified. -/
theorem c3_failure_semantics (fetch : Nat → Nat → Except Unit (List Bar))
    (persisted : List Bar) (s e : Nat) :
    ((∀ a b, fetch a b = Except.ok []) →
      (get_hist_daily_cached fetch persisted s e).result
          = Except.ok (readCacheL persisted) ∧
        (get_hist_daily_cached fetch persisted s e).newCache = persisted)
    ∧ ((∀ a b, fetch a b = Except.error ()) →
      (get_hist_daily_cached fetch persisted s e).newCache = persisted ∧
        ((get_hist_daily_cached fetch persisted s e).result = Except.error () ∨
          (get_hist_daily_cached fetch persisted s e).result
            = Except.ok (readCacheL persisted))) := by
  constructor
  · intro hok
    unfold get_hist_daily_cached cacheContinue
    by_cases hie : (readCacheL persisted).isEmpty <;>
      by_cases hle : e ≤ lastDate (readCacheL persisted) <;>
        simp only [hie, hle, hok, Bool.false_eq_true, if_true, if_false,
          List.isEmpty_nil, ite_true, ite_false] <;>
      (try split) <;> simp
  · intro herr
    unfold get_hist_daily_cached cacheContinue
    by_cases hie : (readCacheL persisted).isEmpty <;>
      by_cases hle : e ≤ lastDate (readCacheL persisted) <;>
        simp only [hie, hle, herr, Bool.false_eq_true, if_true, if_false,
          ite_true, ite_false] <;>
      (try split) <;> simp

/-- C3 counterexample scenario: with a non-empty cache ending at day 5,
end date 10 and an upstream call that raises, `get_hist_daily_cached`
propagates the exception instead of returning the cached series — the
claim that no exception escapes the cache fetch and that it returns the
cached series on fetch failure is false on the code (the `try/except`
sits in the orchestrator, not in the cache fetch). -/
theorem c3_exception_counterexample :
    (get_hist_daily_cached errFetch cacheBar5 0 10).result = Except.error () ∧
      (get_hist_daily_cached errFetch cacheBar5 0 10).result
        ≠ Except.ok (readCacheL cacheBar5) := by
  constructor
  · rfl
  · decide

/-- C3 witness: `c3_failure_semantics` instantiated at a one-bar cache
with an empty-result oracle and with a raising oracle. -/
theorem c3_witness :
    ((get_hist_daily_cached okEmptyFetch cacheBar5 0 10).result
        = Except.ok (readCacheL cacheBar5) ∧
      (get_hist_daily_cached okEmptyFetch cacheBar5 0 10).newCache = cacheBar5) ∧
    ((get_hist_daily_cached errFetch cacheBar5 0 10).newCache = cacheBar5 ∧
      ((get_hist_daily_cached errFetch cacheBar5 0 10).result = Except.error () ∨
        (get_hist_daily_cached errFetch cacheBar5 0 10).result
          = Except.ok (readCacheL cacheBar5))) :=
  ⟨(c3_failure_semantics okEmptyFetch cacheBar5 0 10).1 (fun _ _ => rfl),
    (c3_failure_semantics errFetch cacheBar5 0 10).2 (fun _ _ => rfl)⟩

theorem rollingMeanAt_cast (n : Nat) (lz : List ℤ) (i : Nat) :
    rollingMeanAt n (lz.map (Int.cast : ℤ → ℚ)) i
      = if i + 1 < n then none
        else some (((((lz.drop (i + 1 - n)).take n).sum : ℤ) : ℚ) / n) := by
  unfold rollingMeanAt
  rw [← List.map_drop, ← List.map_take, ← Int.cast_list_sum]

theorem meanLastN_cast (k : Nat) (lz : List ℤ) :
    meanLastN k (lz.map (Int.cast : ℤ → ℚ))
      = if lz.length < k then none
        else some ((((lz.drop (lz.length - k)).sum : ℤ) : ℚ) / k) := by
  unfold meanLastN
  rw [List.length_map, ← List.map_drop, ← Int.cast_list_sum]

theorem rollingMeanAt_last (k : Nat) (hk : 2 ≤ k) (xs : List ℚ) :
    rollingMeanAt k xs (xs.length - 1) = meanLastN k xs := by
  unfold rollingMeanAt meanLastN
  rcases Nat.eq_zero_or_pos xs.length with h0 | hpos
  · rw [h0, if_pos (by omega), if_pos (by omega)]
  · rw [show xs.length - 1 + 1 = xs.length from by omega]
    by_cases hlt : xs.length < k
    · rw [if_pos hlt, if_pos hlt]
    · rw [if_neg hlt, if_neg hlt]
      congr 2
      rw [List.take_of_length_le]
      rw [List.length_drop]
      omega

theorem rollingMeanAt_prev (xs : List ℚ) :
    rollingMeanAt 50 xs (xs.length - 5) = meanLastN 50 (xs.take (xs.length - 4)) := by
  unfold rollingMeanAt meanLastN
  rw [List.length_take]
  by_cases h5 : xs.length < 54
  · rw [if_pos (by omega), if_pos (by omega)]
  · have hmin : min (xs.length - 4) xs.length = xs.length - 4 := by omega
    rw [hmin, if_neg (by omega), if_neg (by omega)]
    congr 2
    rw [List.drop_take]
    have e1 : xs.length - 5 + 1 - 50 = xs.length - 54 := by omega
    have e2 : xs.length - 4 - 50 = xs.length - 54 := by omega
    rw [e1, e2]
    have e3 : xs.length - 4 - (xs.length - 54) = 50 := by omega
    rw [e3]

/-- C4, amended: `is_uptrend` is true iff the latest close exceeds the
latest MA50, the latest MA50 exceeds the latest MA200, and the latest
MA50 exceeds the MA50 four bars prior (the fifth-from-last MA50 value,
`s50.iat[-5]`) — not the MA50 five bars prior as the claim reads. -/
theorem c4_uptrend_characterisation (df : List Bar) :
    is_uptrend df = specUptrendAmended df := by
  simp only [is_uptrend, specUptrendAmended]
  rw [rollingMeanAt_last 50 (by omega), rollingMeanAt_last 200 (by omega),
    rollingMeanAt_prev, List.getLast?_eq_get?]

/-- C4 counterexample: on `df200` (200 bars), the code's `is_uptrend` is
true — the latest close 150 exceeds MA50 = 101, which exceeds
MA200 = 99.25, and MA50 exceeds its value four bars prior (100) — yet
the claim's reading is false, because the MA50 five bars prior is 106,
above the latest MA50. -/
theorem c4_counterexample :
    is_uptrend df200 = true ∧ specUptrendClaim df200 = false := by
  have hcl : df200.map Bar.close = closesZ.map (Int.cast : ℤ → ℚ) := by
    rw [df200, List.map_map]; rfl
  have hlen : closesZ.length = 200 := by decide
  have hs1 : ((closesZ.drop 150).take 50).sum = (5050:ℤ) := by decide
  have hs2 : ((closesZ.drop 0).take 200).sum = (19850:ℤ) := by decide
  have hs3 : ((closesZ.drop 146).take 50).sum = (5000:ℤ) := by decide
  have hs4 : (closesZ.drop 150).sum = (5050:ℤ) := by decide
  have hs5 : closesZ.sum = (19850:ℤ) := by decide
  have hs6 : ((closesZ.take 195).drop 145).sum = (5300:ℤ) := by decide
  have hget : closesZ.get? 199 = some (150:ℤ) := by decide
  have hlast : closesZ.getLast? = some (150:ℤ) := by decide
  have e1 : rollingMeanAt 50 (closesZ.map (Int.cast : ℤ → ℚ)) 199 = some 101 := by
    rw [rollingMeanAt_cast]
    norm_num
    rw [← List.map_drop, ← List.map_take, ← Int.cast_list_sum, hs1]
    norm_num
  have e2 : rollingMeanAt 200 (closesZ.map (Int.cast : ℤ → ℚ)) 199 = some (397/4) := by
    rw [rollingMeanAt_cast]
    norm_num
    rw [List.take_of_length_le (by simp [hlen]), ← Int.cast_list_sum, hs5]
    norm_num
  have e3 : rollingMeanAt 50 (closesZ.map (Int.cast : ℤ → ℚ)) 195 = some 100 := by
    rw [rollingMeanAt_cast]
    norm_num
    rw [← List.map_drop, ← List.map_take, ← Int.cast_list_sum, hs3]
    norm_num
  have e4 : meanLastN 50 (closesZ.map (Int.cast : ℤ → ℚ)) = some 101 := by
    rw [meanLastN_cast, hlen]
    norm_num
    rw [← List.map_drop, ← Int.cast_list_sum, hs4]
    norm_num
  have e5 : meanLastN 200 (closesZ.map (Int.cast : ℤ → ℚ)) = some (397/4) := by
    rw [meanLastN_cast, hlen]
    norm_num
    rw [← Int.cast_list_sum, hs5]
    norm_num
  have e6 : meanLastN 50 ((closesZ.take 195).map (Int.cast : ℤ → ℚ)) = some 106 := by
    rw [meanLastN_cast]
    rw [show (closesZ.take 195).length = 195 from by decide]
    rw [if_neg (by norm_num), hs6]
    norm_num
  have hget2 : closesZ[199]? = some (150:ℤ) := by decide
  constructor
  · simp only [is_uptrend, hcl, List.length_map, hlen]
    norm_num
    rw [hget2, e1, e2, e3]
    refine ⟨⟨?_, ?_⟩, ?_⟩ <;> simp only [Option.map_some', oGT, decide_eq_true_eq] <;> norm_num
  · simp only [specUptrendClaim, hcl, List.length_map, hlen]
    norm_num
    intro h1 h2
    rw [List.map_take] at e6
    rw [e4, e6]
    simp only [oGT, decide_eq_false_iff_not]
    norm_num

/-- C5, amended: the price-floor check runs before the liquidity check in
the per-symbol processing order — a symbol with at least 220 bars whose
latest close is below the price floor is rejected as `below_price_floor`
(even when its 20-day traded value is also below the liquidity floor),
and the liquidity rejection `below_traded_value` can only occur for a
symbol that already passed the price floor. -/
theorem c5_filter_order (cfg : Config) :
    (∀ df : List Bar, 220 ≤ df.length → lastClose df < cfg.PRICE_FLOOR →
      classify cfg df = Reason.below_price_floor)
    ∧ (∀ df : List Bar, 220 ≤ df.length → ¬ lastClose df < cfg.PRICE_FLOOR →
      tv20_cr df < cfg.MIN_DV_CR → classify cfg df = Reason.below_traded_value) := by
  constructor
  · intro df hlen hpf
    unfold classify
    rw [if_neg (by omega), if_pos hpf]
  · intro df hlen hpf htv
    unfold classify
    rw [if_neg (by omega), if_neg hpf, if_pos htv]

theorem tv20_cr_df220 : tv20_cr df220 = 0 := by
  unfold tv20_cr meanLastN df220
  rw [List.map_replicate]
  simp only [mkBar, mul_zero, List.length_replicate, List.drop_replicate, List.sum_replicate,
    smul_zero]
  norm_num

/-- C5 counterexample: `df220` has 220 bars, close 50 below the default
price floor 100 and 20-day traded value 0 below the default liquidity
floor 5 — under the claim its rejection reason would be
`below_traded_value`, but the code classifies it `below_price_floor`
(the price check runs first). -/
theorem c5_order_counterexample :
    220 ≤ df220.length ∧ lastClose df220 < defaultConfig.PRICE_FLOOR ∧
      tv20_cr df220 < defaultConfig.MIN_DV_CR ∧
      classify defaultConfig df220 = Reason.below_price_floor ∧
      classify defaultConfig df220 ≠ Reason.below_traded_value := by
  have hlen : df220.length = 220 := by decide
  have hpf : lastClose df220 < defaultConfig.PRICE_FLOOR := by decide
  have htv : tv20_cr df220 < defaultConfig.MIN_DV_CR := by
    rw [tv20_cr_df220]
    norm_num [defaultConfig]
  have hcl : classify defaultConfig df220 = Reason.below_price_floor := by
    unfold classify
    rw [if_neg (by omega), if_pos hpf]
  exact ⟨by omega, hpf, htv, hcl, by rw [hcl]; exact fun hc => Reason.noConfusion hc⟩

theorem tv20_cr_df220b : tv20_cr df220b = 0 := by
  unfold tv20_cr meanLastN df220b
  rw [List.map_replicate]
  simp only [mkBar, mul_zero, List.length_replicate, List.drop_replicate, List.sum_replicate,
    smul_zero]
  norm_num

/-- C5 witness: both branches of `c5_filter_order` at the default
configuration — `df220` (close 50, below both floors) is rejected as
`below_price_floor`; `df220b` (close 150, traded value 0) is rejected as
`below_traded_value`. -/
theorem c5_witness :
    (220 ≤ df220.length ∧ lastClose df220 < defaultConfig.PRICE_FLOOR ∧
        classify defaultConfig df220 = Reason.below_price_floor)
    ∧ (220 ≤ df220b.length ∧ ¬ lastClose df220b < defaultConfig.PRICE_FLOOR ∧
        tv20_cr df220b < defaultConfig.MIN_DV_CR ∧
        classify defaultConfig df220b = Reason.below_traded_value) :=
  ⟨⟨by decide, by decide,
      (c5_filter_order defaultConfig).1 df220 (by decide) (by decide)⟩,
    ⟨by decide, by decide,
      by rw [tv20_cr_df220b]; norm_num [defaultConfig],
      (c5_filter_order defaultConfig).2 df220b (by decide) (by decide)
        (by rw [tv20_cr_df220b]; norm_num [defaultConfig])⟩⟩

/-- C6, amended: of the four division sites, the ATR ratio and the volume
ratio are guarded — a non-positive (or, in Python, NaN) denominator
yields the `9.99 ≥ 9` sentinel without raising — and `boxSpanFraction`
additionally returns the sentinel on an empty window; but the divisions
in `boxSpanFraction` (by `lastClose`) and `distanceToPivot` (by `pivot`)
are not guarded and do not produce a sentinel on a zero denominator. -/
theorem c6_sentinel_guards (atr_now atr_base v5 v50 : ℚ) (look : Nat) (c : ℚ) :
    (atr_base ≤ 0 → atrRatioOf atr_now atr_base = 999/100)
    ∧ (v50 ≤ 0 → volRatioOf v5 v50 = 999/100)
    ∧ box_span_fraction [] look c = 999/100
    ∧ (9:ℚ) ≤ 999/100 := by
  refine ⟨?_, ?_, ?_, by norm_num⟩
  · intro h
    unfold atrRatioOf
    rw [if_neg (not_lt.mpr h)]
  · intro h
    unfold volRatioOf
    rw [if_neg (not_lt.mpr h)]
  · unfold box_span_fraction tailN
    rw [List.drop_nil]

/-- C6 counterexample: with a zero `lastClose` over a flat one-bar window
(`0/0` — in Python a NaN, in this `ℚ` embedding `0`), `boxSpanFraction`
does not return a sentinel of at least 9, and neither does
`distanceToPivot` at a zero pivot with a zero close — contradicting the
claim that every zero-denominator division in the pipeline yields a
sentinel value `≥ 9`. -/
theorem c6_unguarded_counterexample :
    box_span_fraction [cbar] 12 0 = 0 ∧ ¬ (9:ℚ) ≤ box_span_fraction [cbar] 12 0 ∧
      distToPivotOf 0 0 = 0 ∧ ¬ (9:ℚ) ≤ distToPivotOf 0 0 := by
  have h1 : box_span_fraction [cbar] 12 0 = 0 := by
    norm_num [box_span_fraction, tailN, cbar, mkBar]
  have h2 : distToPivotOf 0 0 = 0 := by
    norm_num [distToPivotOf]
  exact ⟨h1, by rw [h1]; norm_num, h2, by rw [h2]; norm_num⟩

/-- C6 witness: `c6_sentinel_guards` instantiated at zero denominators. -/
theorem c6_witness :
    atrRatioOf 7 0 = 999/100 ∧ volRatioOf 7 0 = 999/100 ∧
      box_span_fraction [] 12 3 = 999/100 ∧ (9:ℚ) ≤ 999/100 :=
  ⟨(c6_sentinel_guards 7 0 7 0 12 3).1 le_rfl,
    (c6_sentinel_guards 7 0 7 0 12 3).2.1 le_rfl,
    (c6_sentinel_guards 7 0 7 0 12 3).2.2.1,
    (c6_sentinel_guards 7 0 7 0 12 3).2.2.2⟩

theorem foldl_max_high (v : ℚ) :
    ∀ l : List Bar, (∀ x ∈ l, x.high = v) →
      l.foldl (fun acc x => max acc x.high) v = v
  | [], _ => rfl
  | x :: xs, h => by
    have hx : x.high = v := h x (List.mem_cons_self x xs)
    rw [List.foldl_cons, hx, max_self]
    exact foldl_max_high v xs (fun y hy => h y (List.mem_cons_of_mem x hy))

theorem foldl_min_low (v : ℚ) :
    ∀ l : List Bar, (∀ x ∈ l, x.low = v) →
      l.foldl (fun acc x => min acc x.low) v = v
  | [], _ => rfl
  | x :: xs, h => by
    have hx : x.low = v := h x (List.mem_cons_self x xs)
    rw [List.foldl_cons, hx, min_self]
    exact foldl_min_low v xs (fun y hy => h y (List.mem_cons_of_mem x hy))

/-- C7, amended: `boxSpanFraction` returns 0 on a non-empty trailing
window in which all bars share one common flat price (`high = low = v`
for the same `v` across the window) and `lastClose` is non-zero; with
per-bar flat prices at different levels the result is the full
`(max high − min low) / lastClose` span, which need not be 0. -/
theorem c7_constant_window (df : List Bar) (look : Nat) (c v : ℚ)
    (hne : tailN look df ≠ [])
    (hall : ∀ b ∈ tailN look df, b.high = v ∧ b.low = v)
    (hc : c ≠ 0) :
    box_span_fraction df look c = 0 := by
  unfold box_span_fraction
  cases htl : tailN look df with
  | nil => exact absurd htl hne
  | cons b rest =>
    have hall2 : ∀ x ∈ b :: rest, x.high = v ∧ x.low = v := htl ▸ hall
    have hb := hall2 b (List.mem_cons_self b rest)
    have hmax : rest.foldl (fun acc x => max acc x.high) b.high = v := by
      rw [hb.1]
      exact foldl_max_high v rest
        (fun y hy => (hall2 y (List.mem_cons_of_mem b hy)).1)
    have hmin : rest.foldl (fun acc x => min acc x.low) b.low = v := by
      rw [hb.2]
      exact foldl_min_low v rest
        (fun y hy => (hall2 y (List.mem_cons_of_mem b hy)).2)
    simp only [hmax, hmin, sub_self, zero_div]

/-- C7 counterexample: a two-bar window with per-bar `high = low` (10 and
20) and `lastClose = 100` gives `boxSpanFraction = (20 − 10)/100 = 0.1`,
not 0 — the claim holds only when the flat bars sit at one common
level. -/
theorem c7_flat_bars_counterexample :
    (∀ b ∈ [barA, barB], b.high = b.low) ∧ (100:ℚ) ≠ 0 ∧
      box_span_fraction [barA, barB] 12 100 = 1/10 ∧
      box_span_fraction [barA, barB] 12 100 ≠ 0 := by
  have h1 : box_span_fraction [barA, barB] 12 100 = 1/10 := by
    norm_num [box_span_fraction, tailN, barA, barB, mkBar, max_def, min_def]
  exact ⟨by decide, by norm_num, h1, by rw [h1]; norm_num⟩

/-- C7 witness: on the one-bar flat window `[cbar]` (high = low = 5) with
`lastClose = 100`, `c7_constant_window` gives `boxSpanFraction = 0`. -/
theorem c7_witness :
    tailN 12 [cbar] ≠ [] ∧ (∀ b ∈ tailN 12 [cbar], b.high = 5 ∧ b.low = 5) ∧
      (100:ℚ) ≠ 0 ∧ box_span_fraction [cbar] 12 100 = 0 :=
  ⟨by decide, by decide, by norm_num,
    c7_constant_window [cbar] 12 100 5 (by decide) (by decide) (by norm_num)⟩

theorem clamp01_mono {a b : ℚ} (h : a ≤ b) : clamp01 a ≤ clamp01 b := by
  unfold clamp01
  split_ifs <;> linarith

/-- C8: `compute_score` is antitone in `box_span_frac` — with every other
metric field equal, a smaller-or-equal box span fraction yields a
greater-or-equal composite score, for any configuration with
`0 ≤ W_BOX` and `0 < BOX_CAP`. -/
theorem c8_score_antitone_box (cfg : Config) (m1 m2 : Metrics)
    (hW : 0 ≤ cfg.W_BOX) (hC : 0 < cfg.BOX_CAP)
    (hb : m1.box_span_frac ≤ m2.box_span_frac)
    (h2 : m1.atr_ratio = m2.atr_ratio) (h3 : m1.vol_ratio = m2.vol_ratio)
    (h4 : m1.dist_to_pivot = m2.dist_to_pivot) (h5 : m1.uptrend = m2.uptrend)
    (h6 : m1.within_20pct_high = m2.within_20pct_high) :
    compute_score cfg m2 ≤ compute_score cfg m1 := by
  simp only [compute_score]
  rw [h2, h3, h4, h5, h6]
  have hmin : min m1.box_span_frac cfg.BOX_CAP ≤ min m2.box_span_frac cfg.BOX_CAP :=
    min_le_min hb le_rfl
  have hdiv : min m1.box_span_frac cfg.BOX_CAP / cfg.BOX_CAP
      ≤ min m2.box_span_frac cfg.BOX_CAP / cfg.BOX_CAP :=
    (div_le_div_right hC).mpr hmin
  have hclamp : clamp01 (1 - min m2.box_span_frac cfg.BOX_CAP / cfg.BOX_CAP)
      ≤ clamp01 (1 - min m1.box_span_frac cfg.BOX_CAP / cfg.BOX_CAP) :=
    clamp01_mono (by linarith)
  have hmul := mul_le_mul_of_nonneg_left hclamp hW
  linarith [hmul]

/-- C8 witness: with the default configuration, tightening the box span
from 0.09 to 0.05 (all other metrics equal) does not decrease the
score. -/
theorem c8_witness :
    (0:ℚ) ≤ defaultConfig.W_BOX ∧ (0:ℚ) < defaultConfig.BOX_CAP ∧
      mTight.box_span_frac ≤ mLoose.box_span_frac ∧
      compute_score defaultConfig mLoose ≤ compute_score defaultConfig mTight :=
  ⟨by norm_num [defaultConfig], by norm_num [defaultConfig],
    by norm_num [mTight, mLoose],
    c8_score_antitone_box defaultConfig mTight mLoose
      (by norm_num [defaultConfig]) (by norm_num [defaultConfig])
      (by norm_num [mTight, mLoose]) rfl rfl rfl rfl rfl⟩

/-- C9: for every processing order of the ranked rows, the output of the
final sort is ordered by score descending with ties broken by
`box_span_pct` ascending, and is a permutation of the input rows. -/
theorem c9_ranked_ordering (rows : List RankedRow) :
    List.Sorted rankedOrder (sortRanked rows) ∧ (sortRanked rows).Perm rows :=
  ⟨List.sorted_insertionSort rankedOrder rows,
    List.perm_insertionSort rankedOrder rows⟩

/-- C10: on a frame with fewer than 252 bars the 252-bar rolling maximum
is undefined, `within_52w_high` is false regardless of the price data,
and consequently the near-high bonus contributes nothing to the score of
such a symbol. -/
theorem c10_no_bonus_below_252 (df : List Bar) (max_dd : ℚ) (cfg : Config)
    (m : Metrics) (h : df.length < 252) :
    within_52w_high df max_dd = false ∧
      compute_score cfg { m with within_20pct_high := within_52w_high df max_dd }
        = compute_score cfg { m with within_20pct_high := false } := by
  have hmax : rollingMaxLast 252 (df.map Bar.high) = none := by
    unfold rollingMaxLast
    rw [List.length_map, if_pos h]
  have hw : within_52w_high df max_dd = false := by
    unfold within_52w_high
    rw [hmax]
  exact ⟨hw, by rw [hw]⟩

/-- C10 witness: `c10_no_bonus_below_252` at the empty frame with the
default drawdown 0.20 and a concrete metrics record. -/
theorem c10_witness :
    ([] : List Bar).length < 252 ∧ within_52w_high [] (1/5) = false ∧
      compute_score defaultConfig
          { mTight with within_20pct_high := within_52w_high [] (1/5) }
        = compute_score defaultConfig { mTight with within_20pct_high := false } :=
  ⟨by norm_num,
    (c10_no_bonus_below_252 [] (1/5) defaultConfig mTight (by norm_num)).1,
    (c10_no_bonus_below_252 [] (1/5) defaultConfig mTight (by norm_num)).2⟩

end MC
